import Mathlib

/-
Verification of the Observee SDK API gateway (src/main.py).

The source is a thin HTTP façade over three external SDK operations
(filter_tools, get_tool_info, execute_tool).  We embed the request and
response records, the credential resolver get_api_key, and the five
handler functions as pure Lean functions.  The external SDK delegates are
parameters of type ... → Except String ... : a delegate that raises an
exception is modelled as returning Except.error with the textual
description of the exception (Python str of the exception).  The
process-wide environment value OBSERVEE_API_KEY is an explicit
Option String parameter.  Exceptions a handler lets escape to the
transport layer are the Except.error side of the handler's return type;
a normal return is Except.ok and is served with transport status 200.
-/

namespace ObserveeAPI

/-- Transport-level HTTP error: status code plus detail message, embedding
the web framework's HTTPException value raised by handlers. -/
structure HTTPException where
  status_code : Nat
  detail : String
deriving DecidableEq, Repr

/-- Textual rendering of an HTTPException when it is caught and converted
to a string by a handler's catch-all clause: the status code, then a colon
and a space, then the detail (as the framework's string conversion of the
exception produces). -/
def str_of_http_exception (e : HTTPException) : String :=
  toString e.status_code ++ ": " ++ e.detail

/-- Python truthiness of an optional string: absent and empty are falsy,
every other string is truthy. -/
def truthy : Option String → Bool
  | none => false
  | some s => !(s == "")

/-- The fixed missing-credential detail used by get_api_key. -/
def missing_api_key_detail : String :=
  "No API key provided. Set OBSERVEE_API_KEY environment variable or provide in request."

/-- The HTTPException raised by get_api_key when neither the request nor
the environment supplies a credential. -/
def missing_api_key_exception : HTTPException :=
  { status_code := 400, detail := missing_api_key_detail }

/-- Second half of get_api_key: read the process-wide environment value;
if it is absent or empty, raise HTTPException 400 with the fixed
missing-credential message. -/
def get_api_key_from_env (env_api_key : Option String) : Except HTTPException String :=
  match env_api_key with
  | some k =>
    if k = "" then Except.error { status_code := 400, detail := missing_api_key_detail }
    else Except.ok k
  | none => Except.error { status_code := 400, detail := missing_api_key_detail }

/-- get_api_key from src/main.py: return the provided key when it is
truthy (present and non-empty); otherwise fall back to the process-wide
environment value, raising HTTPException 400 when that too is falsy. -/
def get_api_key (provided_key : Option String) (env_api_key : Option String) :
    Except HTTPException String :=
  match provided_key with
  | some k => if k = "" then get_api_key_from_env env_api_key else Except.ok k
  | none => get_api_key_from_env env_api_key

/-- Request body of POST /filter-tools (pydantic model FilterToolsRequest):
query is required, max_tools defaults to 10, filter_type defaults to
"local_embedding", observee_api_key is optional. -/
structure FilterToolsRequest where
  query : String
  max_tools : Int := 10
  filter_type : String := "local_embedding"
  observee_api_key : Option String := none
deriving DecidableEq, Repr

/-- Response body of /filter-tools: a sequence of tool descriptors (each
opaque to this service, hence a type parameter) and a count. -/
structure FilterToolsResponse (α : Type) where
  tools : List α
  count : Nat
deriving DecidableEq, Repr

/-- Request body of POST /tool-info (pydantic model GetToolInfoRequest). -/
structure GetToolInfoRequest where
  tool_name : String
  observee_api_key : Option String := none
deriving DecidableEq, Repr

/-- Response body of /tool-info: an optional tool descriptor and a found
flag. -/
structure GetToolInfoResponse (α : Type) where
  tool_info : Option α
  found : Bool
deriving DecidableEq, Repr

/-- Request body of POST /execute-tool (pydantic model ExecuteToolRequest);
tool_input is an opaque record, hence a type parameter. -/
structure ExecuteToolRequest (β : Type) where
  tool_name : String
  tool_input : β
  observee_api_key : Option String := none
deriving DecidableEq, Repr

/-- Response body of /execute-tool: result value (null on failure), a
success flag, and an optional error text defaulting to null. -/
structure ExecuteToolResponse (α : Type) where
  result : Option α
  success : Bool
  error : Option String := none
deriving DecidableEq, Repr

/-- Handler of POST /filter-tools.  The try block resolves the credential
and calls the filter_tools delegate; every exception raised inside the
try block — the HTTPException from get_api_key as well as a delegate
failure — is caught by the except clause and re-raised as HTTPException
500 whose detail is the fixed text "Error filtering tools: " followed by
the string rendering of the caught exception. -/
def filter_tools_endpoint {α : Type}
    (filter_tools : String → Int → String → String → Except String (List α))
    (env_api_key : Option String) (request : FilterToolsRequest) :
    Except HTTPException (FilterToolsResponse α) :=
  match get_api_key request.observee_api_key env_api_key with
  | Except.error e =>
    Except.error { status_code := 500,
                   detail := "Error filtering tools: " ++ str_of_http_exception e }
  | Except.ok api_key =>
    match filter_tools request.query request.max_tools request.filter_type api_key with
    | Except.error m =>
      Except.error { status_code := 500, detail := "Error filtering tools: " ++ m }
    | Except.ok tools => Except.ok { tools := tools, count := tools.length }

/-- Handler of GET /filter-tools: builds the same FilterToolsRequest record
from the query parameters and calls the POST handler. -/
def filter_tools_get_endpoint {α : Type}
    (filter_tools : String → Int → String → String → Except String (List α))
    (env_api_key : Option String)
    (query : String) (max_tools : Int := 10)
    (filter_type : String := "local_embedding")
    (observee_api_key : Option String := none) :
    Except HTTPException (FilterToolsResponse α) :=
  filter_tools_endpoint filter_tools env_api_key
    { query := query, max_tools := max_tools, filter_type := filter_type,
      observee_api_key := observee_api_key }

/-- Handler of POST /tool-info: resolves the credential, calls the
get_tool_info delegate, and sets found to whether the returned descriptor
is non-null; every exception inside the try block is re-raised as
HTTPException 500 with the fixed text "Error getting tool info: " followed
by the string rendering of the caught exception. -/
def get_tool_info_endpoint {α : Type}
    (get_tool_info : String → String → Except String (Option α))
    (env_api_key : Option String) (request : GetToolInfoRequest) :
    Except HTTPException (GetToolInfoResponse α) :=
  match get_api_key request.observee_api_key env_api_key with
  | Except.error e =>
    Except.error { status_code := 500,
                   detail := "Error getting tool info: " ++ str_of_http_exception e }
  | Except.ok api_key =>
    match get_tool_info request.tool_name api_key with
    | Except.error m =>
      Except.error { status_code := 500, detail := "Error getting tool info: " ++ m }
    | Except.ok tool_info =>
      Except.ok { tool_info := tool_info, found := tool_info.isSome }

/-- Handler of GET /tool-info/... : builds the same GetToolInfoRequest
record from the path and query parameters and calls the POST handler. -/
def get_tool_info_get_endpoint {α : Type}
    (get_tool_info : String → String → Except String (Option α))
    (env_api_key : Option String)
    (tool_name : String) (observee_api_key : Option String := none) :
    Except HTTPException (GetToolInfoResponse α) :=
  get_tool_info_endpoint get_tool_info env_api_key
    { tool_name := tool_name, observee_api_key := observee_api_key }

/-- Handler of POST /execute-tool: resolves the credential and calls the
execute_tool delegate.  Every exception inside the try block — including
the HTTPException from get_api_key — is caught and answered as a normal
response with result null, success false and error set to the string
rendering of the caught exception; the handler never raises, so the
transport status is always a success status. -/
def execute_tool_endpoint {β α : Type}
    (execute_tool : String → β → String → Except String α)
    (env_api_key : Option String) (request : ExecuteToolRequest β) :
    Except HTTPException (ExecuteToolResponse α) :=
  match get_api_key request.observee_api_key env_api_key with
  | Except.error e =>
    Except.ok { result := none, success := false,
                error := some (str_of_http_exception e) }
  | Except.ok api_key =>
    match execute_tool request.tool_name request.tool_input api_key with
    | Except.error m =>
      Except.ok { result := none, success := false, error := some m }
    | Except.ok r => Except.ok { result := some r, success := true, error := none }

/-- Instrumented copy of filter_tools_endpoint that also returns how many
times the delegate was invoked along the taken control path (the source
calls the delegate syntactically once, after credential resolution). -/
def filter_tools_endpoint_traced {α : Type}
    (filter_tools : String → Int → String → String → Except String (List α))
    (env_api_key : Option String) (request : FilterToolsRequest) :
    Except HTTPException (FilterToolsResponse α) × Nat :=
  match get_api_key request.observee_api_key env_api_key with
  | Except.error e =>
    (Except.error { status_code := 500,
                    detail := "Error filtering tools: " ++ str_of_http_exception e }, 0)
  | Except.ok api_key =>
    match filter_tools request.query request.max_tools request.filter_type api_key with
    | Except.error m =>
      (Except.error { status_code := 500, detail := "Error filtering tools: " ++ m }, 1)
    | Except.ok tools => (Except.ok { tools := tools, count := tools.length }, 1)

/-- Instrumented copy of get_tool_info_endpoint, with the delegate call
count. -/
def get_tool_info_endpoint_traced {α : Type}
    (get_tool_info : String → String → Except String (Option α))
    (env_api_key : Option String) (request : GetToolInfoRequest) :
    Except HTTPException (GetToolInfoResponse α) × Nat :=
  match get_api_key request.observee_api_key env_api_key with
  | Except.error e =>
    (Except.error { status_code := 500,
                    detail := "Error getting tool info: " ++ str_of_http_exception e }, 0)
  | Except.ok api_key =>
    match get_tool_info request.tool_name api_key with
    | Except.error m =>
      (Except.error { status_code := 500, detail := "Error getting tool info: " ++ m }, 1)
    | Except.ok tool_info =>
      (Except.ok { tool_info := tool_info, found := tool_info.isSome }, 1)

/-- Instrumented copy of execute_tool_endpoint, with the delegate call
count. -/
def execute_tool_endpoint_traced {β α : Type}
    (execute_tool : String → β → String → Except String α)
    (env_api_key : Option String) (request : ExecuteToolRequest β) :
    Except HTTPException (ExecuteToolResponse α) × Nat :=
  match get_api_key request.observee_api_key env_api_key with
  | Except.error e =>
    (Except.ok { result := none, success := false,
                 error := some (str_of_http_exception e) }, 0)
  | Except.ok api_key =>
    match execute_tool request.tool_name request.tool_input api_key with
    | Except.error m =>
      (Except.ok { result := none, success := false, error := some m }, 1)
    | Except.ok r => (Except.ok { result := some r, success := true, error := none }, 1)

/-- Raw (pre-validation) body of POST /filter-tools: each field is absent
or a value of the declared type; defaults are not yet applied. -/
structure RawFilterToolsBody where
  query : Option String
  max_tools : Option Int
  filter_type : Option String
  observee_api_key : Option String
deriving DecidableEq, Repr

/-- Raw (pre-validation) body of POST /tool-info. -/
structure RawGetToolInfoBody where
  tool_name : Option String
  observee_api_key : Option String
deriving DecidableEq, Repr

/-- Raw (pre-validation) body of POST /execute-tool. -/
structure RawExecuteToolBody (β : Type) where
  tool_name : Option String
  tool_input : Option β
  observee_api_key : Option String
deriving DecidableEq, Repr

/-- Validation of a POST /filter-tools body, from the pydantic field
declarations: query is required (any string, no minimum length is
declared), max_tools defaults to 10 and must lie in the range 1 to 100,
filter_type defaults to "local_embedding", observee_api_key defaults to
null.  A violation is rejected with client-error status 422 before the
handler runs. -/
def validate_filter_tools_request (raw : RawFilterToolsBody) :
    Except HTTPException FilterToolsRequest :=
  match raw.query with
  | none => Except.error { status_code := 422, detail := "query: Field required" }
  | some q =>
    let mt : Int := raw.max_tools.getD 10
    if mt < 1 then
      Except.error { status_code := 422,
                     detail := "max_tools: Input should be greater than or equal to 1" }
    else if 100 < mt then
      Except.error { status_code := 422,
                     detail := "max_tools: Input should be less than or equal to 100" }
    else
      Except.ok { query := q, max_tools := mt,
                  filter_type := raw.filter_type.getD "local_embedding",
                  observee_api_key := raw.observee_api_key }

/-- Validation of a POST /tool-info body: tool_name is required (any
string, no minimum length is declared). -/
def validate_get_tool_info_request (raw : RawGetToolInfoBody) :
    Except HTTPException GetToolInfoRequest :=
  match raw.tool_name with
  | none => Except.error { status_code := 422, detail := "tool_name: Field required" }
  | some n => Except.ok { tool_name := n, observee_api_key := raw.observee_api_key }

/-- Validation of a POST /execute-tool body: tool_name and tool_input are
required. -/
def validate_execute_tool_request {β : Type} (raw : RawExecuteToolBody β) :
    Except HTTPException (ExecuteToolRequest β) :=
  match raw.tool_name with
  | none => Except.error { status_code := 422, detail := "tool_name: Field required" }
  | some n =>
    match raw.tool_input with
    | none => Except.error { status_code := 422, detail := "tool_input: Field required" }
    | some i => Except.ok { tool_name := n, tool_input := i,
                            observee_api_key := raw.observee_api_key }

/-- Full POST /filter-tools route: framework validation, then the handler;
instrumented with the delegate call count. -/
def post_filter_tools_traced {α : Type}
    (filter_tools : String → Int → String → String → Except String (List α))
    (env_api_key : Option String) (raw : RawFilterToolsBody) :
    Except HTTPException (FilterToolsResponse α) × Nat :=
  match validate_filter_tools_request raw with
  | Except.error e => (Except.error e, 0)
  | Except.ok request => filter_tools_endpoint_traced filter_tools env_api_key request

/-- Full POST /tool-info route: framework validation, then the handler;
instrumented with the delegate call count. -/
def post_get_tool_info_traced {α : Type}
    (get_tool_info : String → String → Except String (Option α))
    (env_api_key : Option String) (raw : RawGetToolInfoBody) :
    Except HTTPException (GetToolInfoResponse α) × Nat :=
  match validate_get_tool_info_request raw with
  | Except.error e => (Except.error e, 0)
  | Except.ok request => get_tool_info_endpoint_traced get_tool_info env_api_key request

/-- Full POST /execute-tool route: framework validation, then the handler;
instrumented with the delegate call count. -/
def post_execute_tool_traced {β α : Type}
    (execute_tool : String → β → String → Except String α)
    (env_api_key : Option String) (raw : RawExecuteToolBody β) :
    Except HTTPException (ExecuteToolResponse α) × Nat :=
  match validate_execute_tool_request raw with
  | Except.error e => (Except.error e, 0)
  | Except.ok request => execute_tool_endpoint_traced execute_tool env_api_key request

/-- Transport status observed by the caller: the raised HTTPException's
status code, or 200 when the handler returns normally. -/
def respStatus {α : Type} : Except HTTPException α → Nat
  | Except.error e => e.status_code
  | Except.ok _ => 200

/-- A 4xx status. -/
def isClientErrorStatus (s : Nat) : Bool := 400 ≤ s && s < 500

/-- A 5xx status. -/
def isServerErrorStatus (s : Nat) : Bool := 500 ≤ s && s < 600

/-- A 2xx status. -/
def isSuccessStatus (s : Nat) : Bool := 200 ≤ s && s < 300

/-- Stub tool-search delegate that succeeds with an empty list. -/
def okFilterDelegate : String → Int → String → String → Except String (List Nat) :=
  fun _ _ _ _ => Except.ok []

/-- Stub tool-search delegate that raises with description "fail". -/
def failFilterDelegate : String → Int → String → String → Except String (List Nat) :=
  fun _ _ _ _ => Except.error "fail"

/-- Stub tool-search delegate succeeding with three descriptors. -/
def threeFilterDelegate : String → Int → String → String → Except String (List Nat) :=
  fun _ _ _ _ => Except.ok [1, 2, 3]

/-- Stub tool-search delegate that echoes back the credential it received
as the single descriptor, to observe which credential is forwarded. -/
def echoKeyFilterDelegate : String → Int → String → String → Except String (List String) :=
  fun _ _ _ api_key => Except.ok [api_key]

/-- Stub metadata delegate finding nothing. -/
def noneInfoDelegate : String → String → Except String (Option Nat) :=
  fun _ _ => Except.ok none

/-- Stub metadata delegate echoing the tool name as the descriptor. -/
def someInfoDelegate : String → String → Except String (Option String) :=
  fun tool_name _ => Except.ok (some tool_name)

/-- Stub metadata delegate that raises with description "fail". -/
def failInfoDelegate : String → String → Except String (Option Nat) :=
  fun _ _ => Except.error "fail"

/-- Stub execution delegate succeeding with a constant result. -/
def okExecuteDelegate : String → Nat → String → Except String Nat :=
  fun _ _ _ => Except.ok 7

/-- Stub execution delegate raising with description "bad input". -/
def brokenExecuteDelegate : String → Nat → String → Except String Nat :=
  fun _ _ _ => Except.error "bad input"

/-- When both the request credential and the environment value are falsy,
the resolver raises exactly HTTPException 400 with the fixed message. -/
theorem get_api_key_of_falsy (pk env_api_key : Option String)
    (h1 : truthy pk = false) (h2 : truthy env_api_key = false) :
    get_api_key pk env_api_key =
      Except.error { status_code := 400, detail := missing_api_key_detail } := by
  have henv : get_api_key_from_env env_api_key =
      Except.error { status_code := 400, detail := missing_api_key_detail } := by
    cases env_api_key with
    | none => rfl
    | some e =>
      have he : e = "" := by simpa [truthy] using h2
      simp [get_api_key_from_env, he]
  cases pk with
  | none => simpa [get_api_key] using henv
  | some k =>
    have hk : k = "" := by simpa [truthy] using h1
    simp [get_api_key, hk, henv]

/-- The instrumented filter handler computes the same response as the
plain one. -/
theorem filter_tools_endpoint_traced_fst {α : Type}
    (d : String → Int → String → String → Except String (List α))
    (env_api_key : Option String) (request : FilterToolsRequest) :
    (filter_tools_endpoint_traced d env_api_key request).1 =
      filter_tools_endpoint d env_api_key request := by
  unfold filter_tools_endpoint_traced filter_tools_endpoint
  cases hk : get_api_key request.observee_api_key env_api_key with
  | error e => simp
  | ok k =>
    cases hd : d request.query request.max_tools request.filter_type k <;> simp [hd]

/-- The instrumented tool-info handler computes the same response as the
plain one. -/
theorem get_tool_info_endpoint_traced_fst {α : Type}
    (d : String → String → Except String (Option α))
    (env_api_key : Option String) (request : GetToolInfoRequest) :
    (get_tool_info_endpoint_traced d env_api_key request).1 =
      get_tool_info_endpoint d env_api_key request := by
  unfold get_tool_info_endpoint_traced get_tool_info_endpoint
  cases hk : get_api_key request.observee_api_key env_api_key with
  | error e => simp
  | ok k => cases hd : d request.tool_name k <;> simp [hd]

/-- The instrumented execute handler computes the same response as the
plain one. -/
theorem execute_tool_endpoint_traced_fst {β α : Type}
    (d : String → β → String → Except String α)
    (env_api_key : Option String) (request : ExecuteToolRequest β) :
    (execute_tool_endpoint_traced d env_api_key request).1 =
      execute_tool_endpoint d env_api_key request := by
  unfold execute_tool_endpoint_traced execute_tool_endpoint
  cases hk : get_api_key request.observee_api_key env_api_key with
  | error e => simp
  | ok k => cases hd : d request.tool_name request.tool_input k <;> simp [hd]

/-- C1 counterexample: a POST /filter-tools request with no credential in
the request and none in the environment is answered with transport status
500, which is not a client-error status, so the claim as stated fails. -/
theorem c1_missing_credential_counterexample :
    respStatus (filter_tools_endpoint okFilterDelegate none { query := "send email" }) = 500 ∧
    isClientErrorStatus
      (respStatus (filter_tools_endpoint okFilterDelegate none { query := "send email" })) =
      false := by
  exact ⟨rfl, rfl⟩

/-- C1 (amended): for every request to any of the three operations whose
credential is absent or empty while the process-wide value is also absent
or empty, no delegate is invoked and the resolver raises the fixed
missing-credential client-error internally; but the externally observed
response is: for FilterTools and GetToolInfo a 500 server-error whose
detail is the operation's error text followed by the rendering of that
client-error, and for ExecuteTool a normally returned success-status body
with result null, success false and error equal to that rendering. -/
theorem c1_missing_credential_behavior {α β γ δ : Type}
    (fd : String → Int → String → String → Except String (List α))
    (gd : String → String → Except String (Option β))
    (ed : String → γ → String → Except String δ)
    (env_api_key : Option String)
    (freq : FilterToolsRequest) (greq : GetToolInfoRequest)
    (ereq : ExecuteToolRequest γ)
    (hf : truthy freq.observee_api_key = false)
    (hg : truthy greq.observee_api_key = false)
    (he : truthy ereq.observee_api_key = false)
    (henv : truthy env_api_key = false) :
    filter_tools_endpoint_traced fd env_api_key freq =
      (Except.error { status_code := 500,
                      detail := "Error filtering tools: " ++
                        str_of_http_exception missing_api_key_exception },
       0) ∧
    get_tool_info_endpoint_traced gd env_api_key greq =
      (Except.error { status_code := 500,
                      detail := "Error getting tool info: " ++
                        str_of_http_exception missing_api_key_exception },
       0) ∧
    execute_tool_endpoint_traced ed env_api_key ereq =
      (Except.ok { result := none, success := false,
                   error := some (str_of_http_exception missing_api_key_exception) },
       0) ∧
    isSuccessStatus (respStatus (execute_tool_endpoint ed env_api_key ereq)) = true ∧
    isClientErrorStatus (respStatus (filter_tools_endpoint fd env_api_key freq)) = false := by
  have h1 := get_api_key_of_falsy _ _ hf henv
  have h2 := get_api_key_of_falsy _ _ hg henv
  have h3 := get_api_key_of_falsy _ _ he henv
  have e1 : filter_tools_endpoint fd env_api_key freq =
      Except.error { status_code := 500,
                     detail := "Error filtering tools: " ++
                       str_of_http_exception missing_api_key_exception } := by
    simp [filter_tools_endpoint, h1, missing_api_key_exception]
  have e3 : execute_tool_endpoint ed env_api_key ereq =
      Except.ok { result := none, success := false,
                  error := some (str_of_http_exception missing_api_key_exception) } := by
    simp [execute_tool_endpoint, h3, missing_api_key_exception]
  refine ⟨?_, ?_, ?_, ?_, ?_⟩
  · simp [filter_tools_endpoint_traced, h1, missing_api_key_exception]
  · simp [get_tool_info_endpoint_traced, h2, missing_api_key_exception]
  · simp [execute_tool_endpoint_traced, h3, missing_api_key_exception]
  · rw [e3]; rfl
  · rw [e1]; rfl

/-- Witness for c1_missing_credential_behavior at credential-free concrete
requests with an empty environment. -/
theorem c1_missing_credential_behavior_witness :
    filter_tools_endpoint_traced okFilterDelegate none { query := "send email" } =
      (Except.error { status_code := 500,
                      detail := "Error filtering tools: " ++
                        str_of_http_exception missing_api_key_exception },
       0) ∧
    get_tool_info_endpoint_traced noneInfoDelegate none { tool_name := "gmail" } =
      (Except.error { status_code := 500,
                      detail := "Error getting tool info: " ++
                        str_of_http_exception missing_api_key_exception },
       0) ∧
    execute_tool_endpoint_traced okExecuteDelegate none { tool_name := "gmail", tool_input := 0 } =
      (Except.ok { result := none, success := false,
                   error := some (str_of_http_exception missing_api_key_exception) },
       0) ∧
    isSuccessStatus (respStatus (execute_tool_endpoint okExecuteDelegate none
      { tool_name := "gmail", tool_input := 0 })) = true ∧
    isClientErrorStatus (respStatus (filter_tools_endpoint okFilterDelegate none
      { query := "send email" })) = false :=
  c1_missing_credential_behavior okFilterDelegate noneInfoDelegate okExecuteDelegate none
    { query := "send email" } { tool_name := "gmail" } { tool_name := "gmail", tool_input := 0 }
    rfl rfl rfl rfl

/-- C2: the execute-tool handler always returns normally, so its transport
status is always a success status and every failure inside it — the
credential resolver raising or the delegate raising — is reported in-band
with success false; whereas a delegate failure in filter-tools or
tool-info is raised as a generic 500 server-error. -/
theorem c2_execute_in_band_failures {β α γ δ : Type}
    (ed : String → β → String → Except String α)
    (fd : String → Int → String → String → Except String (List γ))
    (gd : String → String → Except String (Option δ))
    (env_api_key : Option String)
    (ereq : ExecuteToolRequest β) (freq : FilterToolsRequest) (greq : GetToolInfoRequest) :
    isSuccessStatus (respStatus (execute_tool_endpoint ed env_api_key ereq)) = true ∧
    (∀ e, get_api_key ereq.observee_api_key env_api_key = Except.error e →
       execute_tool_endpoint ed env_api_key ereq =
         Except.ok { result := none, success := false,
                     error := some (str_of_http_exception e) }) ∧
    (∀ k m, get_api_key ereq.observee_api_key env_api_key = Except.ok k →
       ed ereq.tool_name ereq.tool_input k = Except.error m →
       execute_tool_endpoint ed env_api_key ereq =
         Except.ok { result := none, success := false, error := some m }) ∧
    (∀ k m, get_api_key freq.observee_api_key env_api_key = Except.ok k →
       fd freq.query freq.max_tools freq.filter_type k = Except.error m →
       filter_tools_endpoint fd env_api_key freq =
         Except.error { status_code := 500, detail := "Error filtering tools: " ++ m }) ∧
    (∀ k m, get_api_key greq.observee_api_key env_api_key = Except.ok k →
       gd greq.tool_name k = Except.error m →
       get_tool_info_endpoint gd env_api_key greq =
         Except.error { status_code := 500, detail := "Error getting tool info: " ++ m }) := by
  refine ⟨?_, ?_, ?_, ?_, ?_⟩
  · cases hk : get_api_key ereq.observee_api_key env_api_key with
    | error e => simp [execute_tool_endpoint, hk, respStatus, isSuccessStatus]
    | ok k =>
      cases hd : ed ereq.tool_name ereq.tool_input k <;>
        simp [execute_tool_endpoint, hk, hd, respStatus, isSuccessStatus]
  · intro e he
    simp [execute_tool_endpoint, he]
  · intro k m hk hd
    simp [execute_tool_endpoint, hk, hd]
  · intro k m hk hd
    simp [filter_tools_endpoint, hk, hd]
  · intro k m hk hd
    simp [get_tool_info_endpoint, hk, hd]

/-- Witness for c2_execute_in_band_failures: a raising execute delegate is
reported in-band (also when the resolver itself raises), while raising
search and lookup delegates become 500 responses. -/
theorem c2_execute_in_band_failures_witness :
    isSuccessStatus (respStatus (execute_tool_endpoint brokenExecuteDelegate (some "envkey")
      { tool_name := "broken_tool", tool_input := 0 })) = true ∧
    execute_tool_endpoint brokenExecuteDelegate (some "envkey")
      { tool_name := "broken_tool", tool_input := 0 } =
      Except.ok { result := none, success := false, error := some "bad input" } ∧
    execute_tool_endpoint brokenExecuteDelegate none
      { tool_name := "broken_tool", tool_input := 0 } =
      Except.ok { result := none, success := false,
                  error := some (str_of_http_exception missing_api_key_exception) } ∧
    filter_tools_endpoint failFilterDelegate (some "envkey") { query := "send email" } =
      Except.error { status_code := 500, detail := "Error filtering tools: " ++ "fail" } ∧
    get_tool_info_endpoint failInfoDelegate (some "envkey") { tool_name := "gmail" } =
      Except.error { status_code := 500, detail := "Error getting tool info: " ++ "fail" } :=
  have h := c2_execute_in_band_failures brokenExecuteDelegate failFilterDelegate failInfoDelegate
    (some "envkey") { tool_name := "broken_tool", tool_input := 0 }
    { query := "send email" } { tool_name := "gmail" }
  have h0 := c2_execute_in_band_failures brokenExecuteDelegate failFilterDelegate failInfoDelegate
    none { tool_name := "broken_tool", tool_input := 0 }
    { query := "send email" } { tool_name := "gmail" }
  ⟨h.1, h.2.2.1 "envkey" "bad input" rfl rfl,
   h0.2.1 missing_api_key_exception rfl,
   h.2.2.2.1 "envkey" "fail" rfl rfl, h.2.2.2.2 "envkey" "fail" rfl rfl⟩

/-- C3: for an execute-tool request whose credential resolves and whose
delegate raises, the transport status is a success status and the body has
success false, result null, and error populated (non-null) with exactly
the exception's textual description. -/
theorem c3_execute_delegate_raise {β α : Type}
    (ed : String → β → String → Except String α)
    (env_api_key : Option String) (request : ExecuteToolRequest β)
    (k m : String)
    (hk : get_api_key request.observee_api_key env_api_key = Except.ok k)
    (hd : ed request.tool_name request.tool_input k = Except.error m) :
    execute_tool_endpoint ed env_api_key request =
      Except.ok { result := none, success := false, error := some m } ∧
    isSuccessStatus (respStatus (execute_tool_endpoint ed env_api_key request)) = true ∧
    (∀ resp, execute_tool_endpoint ed env_api_key request = Except.ok resp →
       resp.success = false ∧ resp.result = none ∧ resp.error = some m ∧ resp.error ≠ none) := by
  have e1 : execute_tool_endpoint ed env_api_key request =
      Except.ok { result := none, success := false, error := some m } := by
    simp [execute_tool_endpoint, hk, hd]
  refine ⟨e1, by rw [e1]; rfl, ?_⟩
  intro resp hresp
  rw [e1] at hresp
  injection hresp with hr
  subst hr
  exact ⟨rfl, rfl, rfl, Option.some_ne_none m⟩

/-- Witness for c3_execute_delegate_raise: the spec's broken_tool scenario,
where the delegate raises with description "bad input". -/
theorem c3_execute_delegate_raise_witness :
    execute_tool_endpoint brokenExecuteDelegate (some "envkey")
      { tool_name := "broken_tool", tool_input := 0 } =
      Except.ok { result := none, success := false, error := some "bad input" } ∧
    isSuccessStatus (respStatus (execute_tool_endpoint brokenExecuteDelegate (some "envkey")
      { tool_name := "broken_tool", tool_input := 0 })) = true :=
  have h := c3_execute_delegate_raise brokenExecuteDelegate (some "envkey")
    { tool_name := "broken_tool", tool_input := 0 } "envkey" "bad input" rfl rfl
  ⟨h.1, h.2.1⟩

/-- C4: when the delegate of filter-tools or tool-info raises, the
response is a 500 server-error whose detail carries the exception's
description, and the delegate was invoked exactly once (no retry); the
error response carries no body, so no partial result is returned. -/
theorem c4_search_lookup_delegate_raise {α β : Type}
    (fd : String → Int → String → String → Except String (List α))
    (gd : String → String → Except String (Option β))
    (env_api_key : Option String)
    (freq : FilterToolsRequest) (greq : GetToolInfoRequest)
    (k1 k2 m1 m2 : String)
    (hk1 : get_api_key freq.observee_api_key env_api_key = Except.ok k1)
    (hd1 : fd freq.query freq.max_tools freq.filter_type k1 = Except.error m1)
    (hk2 : get_api_key greq.observee_api_key env_api_key = Except.ok k2)
    (hd2 : gd greq.tool_name k2 = Except.error m2) :
    filter_tools_endpoint_traced fd env_api_key freq =
      (Except.error { status_code := 500, detail := "Error filtering tools: " ++ m1 }, 1) ∧
    get_tool_info_endpoint_traced gd env_api_key greq =
      (Except.error { status_code := 500, detail := "Error getting tool info: " ++ m2 }, 1) ∧
    isServerErrorStatus (respStatus (filter_tools_endpoint fd env_api_key freq)) = true ∧
    isServerErrorStatus (respStatus (get_tool_info_endpoint gd env_api_key greq)) = true := by
  have e1 : filter_tools_endpoint fd env_api_key freq =
      Except.error { status_code := 500, detail := "Error filtering tools: " ++ m1 } := by
    simp [filter_tools_endpoint, hk1, hd1]
  have e2 : get_tool_info_endpoint gd env_api_key greq =
      Except.error { status_code := 500, detail := "Error getting tool info: " ++ m2 } := by
    simp [get_tool_info_endpoint, hk2, hd2]
  refine ⟨?_, ?_, by rw [e1]; rfl, by rw [e2]; rfl⟩
  · simp [filter_tools_endpoint_traced, hk1, hd1]
  · simp [get_tool_info_endpoint_traced, hk2, hd2]

/-- Witness for c4_search_lookup_delegate_raise with raising search and
lookup delegates and the credential resolved from the environment. -/
theorem c4_search_lookup_delegate_raise_witness :
    filter_tools_endpoint_traced failFilterDelegate (some "envkey") { query := "send email" } =
      (Except.error { status_code := 500, detail := "Error filtering tools: " ++ "fail" }, 1) ∧
    get_tool_info_endpoint_traced failInfoDelegate (some "envkey") { tool_name := "gmail" } =
      (Except.error { status_code := 500, detail := "Error getting tool info: " ++ "fail" }, 1) ∧
    isServerErrorStatus (respStatus (filter_tools_endpoint failFilterDelegate (some "envkey")
      { query := "send email" })) = true ∧
    isServerErrorStatus (respStatus (get_tool_info_endpoint failInfoDelegate (some "envkey")
      { tool_name := "gmail" })) = true :=
  c4_search_lookup_delegate_raise failFilterDelegate failInfoDelegate (some "envkey")
    { query := "send email" } { tool_name := "gmail" } "envkey" "envkey" "fail" "fail"
    rfl rfl rfl rfl

/-- C5 counterexample: an empty value for a required string field is not
rejected by validation — the empty query builds a request record, and with
a configured environment credential the handler body runs and the delegate
is invoked (call count 1); an empty tool_name likewise passes validation. -/
theorem c5_validation_counterexample :
    validate_filter_tools_request
        { query := some "", max_tools := none, filter_type := none, observee_api_key := none } =
      Except.ok { query := "", max_tools := 10, filter_type := "local_embedding",
                  observee_api_key := none } ∧
    (post_filter_tools_traced okFilterDelegate (some "envkey")
        { query := some "", max_tools := none, filter_type := none,
          observee_api_key := none }).2 = 1 ∧
    validate_get_tool_info_request { tool_name := some "", observee_api_key := none } =
      Except.ok { tool_name := "", observee_api_key := none } := by
  exact ⟨rfl, rfl, rfl⟩

/-- C5 (amended): framework validation rejects an out-of-range max_tools
and a missing required field with client-error 422 before the handler body
runs — no credential resolution and no delegate call happens; but an empty
required string (query, tool_name) is not rejected: it passes validation
and the handler body, including the delegate call, runs. -/
theorem c5_validation_behavior :
    (∀ (α : Type) (fd : String → Int → String → String → Except String (List α))
       (env_api_key : Option String) (raw : RawFilterToolsBody) (q : String) (m : Int),
       raw.query = some q → raw.max_tools = some m → m < 1 →
       post_filter_tools_traced fd env_api_key raw =
         (Except.error { status_code := 422,
                         detail := "max_tools: Input should be greater than or equal to 1" },
          0)) ∧
    (∀ (α : Type) (fd : String → Int → String → String → Except String (List α))
       (env_api_key : Option String) (raw : RawFilterToolsBody) (q : String) (m : Int),
       raw.query = some q → raw.max_tools = some m → 100 < m →
       post_filter_tools_traced fd env_api_key raw =
         (Except.error { status_code := 422,
                         detail := "max_tools: Input should be less than or equal to 100" },
          0)) ∧
    (∀ (α : Type) (fd : String → Int → String → String → Except String (List α))
       (env_api_key : Option String) (raw : RawFilterToolsBody),
       raw.query = none →
       post_filter_tools_traced fd env_api_key raw =
         (Except.error { status_code := 422, detail := "query: Field required" }, 0)) ∧
    (∀ (α : Type) (gd : String → String → Except String (Option α))
       (env_api_key : Option String) (raw : RawGetToolInfoBody),
       raw.tool_name = none →
       post_get_tool_info_traced gd env_api_key raw =
         (Except.error { status_code := 422, detail := "tool_name: Field required" }, 0)) ∧
    (∀ (β α : Type) (ed : String → β → String → Except String α)
       (env_api_key : Option String) (raw : RawExecuteToolBody β),
       raw.tool_name = none →
       post_execute_tool_traced ed env_api_key raw =
         (Except.error { status_code := 422, detail := "tool_name: Field required" }, 0)) ∧
    (∀ (β α : Type) (ed : String → β → String → Except String α)
       (env_api_key : Option String) (raw : RawExecuteToolBody β) (n : String),
       raw.tool_name = some n → raw.tool_input = none →
       post_execute_tool_traced ed env_api_key raw =
         (Except.error { status_code := 422, detail := "tool_input: Field required" }, 0)) ∧
    isClientErrorStatus 422 = true ∧
    (∀ (α : Type) (fd : String → Int → String → String → Except String (List α)) (k : String),
       k ≠ "" →
       (post_filter_tools_traced fd (some k)
         { query := some "", max_tools := none, filter_type := none,
           observee_api_key := none }).2 = 1) ∧
    (∀ (α : Type) (gd : String → String → Except String (Option α)) (k : String),
       k ≠ "" →
       (post_get_tool_info_traced gd (some k)
         { tool_name := some "", observee_api_key := none }).2 = 1) ∧
    (∀ (β α : Type) (ed : String → β → String → Except String α) (i : β) (k : String),
       k ≠ "" →
       validate_execute_tool_request
           { tool_name := some "", tool_input := some i, observee_api_key := none } =
         Except.ok { tool_name := "", tool_input := i, observee_api_key := none } ∧
       (post_execute_tool_traced ed (some k)
         { tool_name := some "", tool_input := some i, observee_api_key := none }).2 = 1) := by
  refine ⟨?_, ?_, ?_, ?_, ?_, ?_, rfl, ?_, ?_, ?_⟩
  · intro α fd env_api_key raw q m hq hm hlt
    simp [post_filter_tools_traced, validate_filter_tools_request, hq, hm, hlt]
  · intro α fd env_api_key raw q m hq hm hgt
    have hn : ¬ (m < 1) := by omega
    simp [post_filter_tools_traced, validate_filter_tools_request, hq, hm, hn, hgt]
  · intro α fd env_api_key raw hq
    simp [post_filter_tools_traced, validate_filter_tools_request, hq]
  · intro α gd env_api_key raw hn
    simp [post_get_tool_info_traced, validate_get_tool_info_request, hn]
  · intro β α ed env_api_key raw hn
    simp [post_execute_tool_traced, validate_execute_tool_request, hn]
  · intro β α ed env_api_key raw n hn hi
    simp [post_execute_tool_traced, validate_execute_tool_request, hn, hi]
  · intro α fd k hk
    have hkey : get_api_key none (some k) = Except.ok k := by
      simp [get_api_key, get_api_key_from_env, hk]
    cases hd : fd "" 10 "local_embedding" k <;>
      simp [post_filter_tools_traced, validate_filter_tools_request,
            filter_tools_endpoint_traced, hkey, hd]
  · intro α gd k hk
    have hkey : get_api_key none (some k) = Except.ok k := by
      simp [get_api_key, get_api_key_from_env, hk]
    cases hd : gd "" k <;>
      simp [post_get_tool_info_traced, validate_get_tool_info_request,
            get_tool_info_endpoint_traced, hkey, hd]
  · intro β α ed i k hk
    have hkey : get_api_key none (some k) = Except.ok k := by
      simp [get_api_key, get_api_key_from_env, hk]
    refine ⟨rfl, ?_⟩
    cases hd : ed "" i k <;>
      simp [post_execute_tool_traced, validate_execute_tool_request,
            execute_tool_endpoint_traced, hkey, hd]

/-- Witness for c5_validation_behavior at concrete invalid and
empty-string inputs. -/
theorem c5_validation_behavior_witness :
    post_filter_tools_traced okFilterDelegate (some "envkey")
      { query := some "send email", max_tools := some 0, filter_type := none,
        observee_api_key := none } =
      (Except.error { status_code := 422,
                      detail := "max_tools: Input should be greater than or equal to 1" },
       0) ∧
    post_filter_tools_traced okFilterDelegate (some "envkey")
      { query := some "send email", max_tools := some 101, filter_type := none,
        observee_api_key := none } =
      (Except.error { status_code := 422,
                      detail := "max_tools: Input should be less than or equal to 100" },
       0) ∧
    post_filter_tools_traced okFilterDelegate (some "envkey")
      { query := none, max_tools := none, filter_type := none, observee_api_key := none } =
      (Except.error { status_code := 422, detail := "query: Field required" }, 0) ∧
    post_get_tool_info_traced noneInfoDelegate (some "envkey")
      { tool_name := none, observee_api_key := none } =
      (Except.error { status_code := 422, detail := "tool_name: Field required" }, 0) ∧
    post_execute_tool_traced okExecuteDelegate (some "envkey")
      { tool_name := none, tool_input := some 0, observee_api_key := none } =
      (Except.error { status_code := 422, detail := "tool_name: Field required" }, 0) ∧
    post_execute_tool_traced okExecuteDelegate (some "envkey")
      { tool_name := some "gmail", tool_input := none, observee_api_key := none } =
      (Except.error { status_code := 422, detail := "tool_input: Field required" }, 0) ∧
    (post_filter_tools_traced okFilterDelegate (some "envkey")
      { query := some "", max_tools := none, filter_type := none,
        observee_api_key := none }).2 = 1 ∧
    (post_get_tool_info_traced noneInfoDelegate (some "envkey")
      { tool_name := some "", observee_api_key := none }).2 = 1 ∧
    validate_execute_tool_request
        { tool_name := some "", tool_input := some (0 : Nat), observee_api_key := none } =
      Except.ok { tool_name := "", tool_input := 0, observee_api_key := none } ∧
    (post_execute_tool_traced okExecuteDelegate (some "envkey")
      { tool_name := some "", tool_input := some 0, observee_api_key := none }).2 = 1 :=
  have h := c5_validation_behavior
  have hexec := h.2.2.2.2.2.2.2.2.2 Nat Nat okExecuteDelegate 0 "envkey" (by decide)
  ⟨h.1 Nat okFilterDelegate (some "envkey") _ "send email" 0 rfl rfl (by decide),
   h.2.1 Nat okFilterDelegate (some "envkey") _ "send email" 101 rfl rfl (by decide),
   h.2.2.1 Nat okFilterDelegate (some "envkey") _ rfl,
   h.2.2.2.1 Nat noneInfoDelegate (some "envkey") _ rfl,
   h.2.2.2.2.1 Nat Nat okExecuteDelegate (some "envkey") _ rfl,
   h.2.2.2.2.2.1 Nat Nat okExecuteDelegate (some "envkey") _ "gmail" rfl rfl,
   h.2.2.2.2.2.2.2.1 Nat okFilterDelegate "envkey" (by decide),
   h.2.2.2.2.2.2.2.2.1 Nat noneInfoDelegate "envkey" (by decide),
   hexec.1, hexec.2⟩

/-- C6: get_api_key is a pure function of the explicit value and the
process-wide value: a present non-empty explicit value is returned as-is
(whatever the environment holds, which is ignored) and is exactly the
credential the delegate receives; otherwise a present non-empty
environment value is returned; otherwise it raises HTTPException 400 with
the fixed missing-credential message. -/
theorem c6_get_api_key_resolution :
    (∀ (k : String) (env_api_key : Option String), k ≠ "" →
       get_api_key (some k) env_api_key = Except.ok k) ∧
    (∀ (pk : Option String) (e : String), truthy pk = false → e ≠ "" →
       get_api_key pk (some e) = Except.ok e) ∧
    (∀ (pk env_api_key : Option String),
       truthy pk = false → truthy env_api_key = false →
       get_api_key pk env_api_key = Except.error missing_api_key_exception) ∧
    (∀ (env_api_key : Option String) (q k : String) (mt : Int) (ft : String), k ≠ "" →
       filter_tools_endpoint echoKeyFilterDelegate env_api_key
         { query := q, max_tools := mt, filter_type := ft, observee_api_key := some k } =
         Except.ok { tools := [k], count := 1 }) := by
  refine ⟨?_, ?_, ?_, ?_⟩
  · intro k env_api_key hk
    simp [get_api_key, hk]
  · intro pk e hpk he
    cases pk with
    | none => simp [get_api_key, get_api_key_from_env, he]
    | some k =>
      have hk : k = "" := by simpa [truthy] using hpk
      simp [get_api_key, hk, get_api_key_from_env, he]
  · intro pk env_api_key hpk henv
    simpa [missing_api_key_exception] using get_api_key_of_falsy pk env_api_key hpk henv
  · intro env_api_key q k mt ft hk
    have hkey : get_api_key (some k) env_api_key = Except.ok k := by
      simp [get_api_key, hk]
    simp [filter_tools_endpoint, hkey, echoKeyFilterDelegate]

/-- Witness for c6_get_api_key_resolution: the explicit credential wins
over the environment and is the value echoed back by the delegate. -/
theorem c6_get_api_key_resolution_witness :
    get_api_key (some "reqkey") (some "envkey") = Except.ok "reqkey" ∧
    get_api_key none (some "envkey") = Except.ok "envkey" ∧
    get_api_key (some "") none = Except.error missing_api_key_exception ∧
    filter_tools_endpoint echoKeyFilterDelegate (some "envkey")
      { query := "send email", max_tools := 5, filter_type := "bm25",
        observee_api_key := some "reqkey" } =
      Except.ok { tools := ["reqkey"], count := 1 } :=
  have h := c6_get_api_key_resolution
  ⟨h.1 "reqkey" (some "envkey") (by decide),
   h.2.1 none "envkey" rfl (by decide),
   h.2.2.1 (some "") none rfl rfl,
   h.2.2.2 (some "envkey") "send email" "reqkey" 5 "bm25" (by decide)⟩

/-- C7: for a tool-info request whose credential resolves and whose
delegate returns without raising, the response wraps the returned optional
descriptor unchanged and found is true exactly when the descriptor is
non-null; absence of a result is not an error. -/
theorem c7_found_iff_tool_info {α : Type}
    (gd : String → String → Except String (Option α))
    (env_api_key : Option String) (request : GetToolInfoRequest)
    (k : String) (info : Option α)
    (hk : get_api_key request.observee_api_key env_api_key = Except.ok k)
    (hd : gd request.tool_name k = Except.ok info) :
    get_tool_info_endpoint gd env_api_key request =
      Except.ok { tool_info := info, found := info.isSome } ∧
    (∀ resp, get_tool_info_endpoint gd env_api_key request = Except.ok resp →
       (resp.found = true ↔ resp.tool_info ≠ none)) := by
  have e1 : get_tool_info_endpoint gd env_api_key request =
      Except.ok { tool_info := info, found := info.isSome } := by
    simp [get_tool_info_endpoint, hk, hd]
  refine ⟨e1, ?_⟩
  intro resp hresp
  rw [e1] at hresp
  injection hresp with hr
  subst hr
  cases info <;> simp

/-- Witness for c7_found_iff_tool_info: a found descriptor gives found
true, an absent one gives found false with tool_info null. -/
theorem c7_found_iff_tool_info_witness :
    get_tool_info_endpoint someInfoDelegate (some "envkey") { tool_name := "gmail" } =
      Except.ok { tool_info := some "gmail", found := true } ∧
    get_tool_info_endpoint noneInfoDelegate (some "envkey") { tool_name := "nonexistent_tool" } =
      Except.ok { tool_info := none, found := false } :=
  ⟨(c7_found_iff_tool_info someInfoDelegate (some "envkey") { tool_name := "gmail" }
      "envkey" (some "gmail") rfl rfl).1,
   (c7_found_iff_tool_info noneInfoDelegate (some "envkey") { tool_name := "nonexistent_tool" }
      "envkey" none rfl rfl).1⟩

/-- C8: for a filter-tools request whose credential resolves and whose
delegate returns a sequence without raising, the response wraps that
sequence unchanged and count equals its length. -/
theorem c8_count_eq_length {α : Type}
    (fd : String → Int → String → String → Except String (List α))
    (env_api_key : Option String) (request : FilterToolsRequest)
    (k : String) (ts : List α)
    (hk : get_api_key request.observee_api_key env_api_key = Except.ok k)
    (hd : fd request.query request.max_tools request.filter_type k = Except.ok ts) :
    filter_tools_endpoint fd env_api_key request =
      Except.ok { tools := ts, count := ts.length } ∧
    (∀ resp, filter_tools_endpoint fd env_api_key request = Except.ok resp →
       resp.tools = ts ∧ resp.count = resp.tools.length) := by
  have e1 : filter_tools_endpoint fd env_api_key request =
      Except.ok { tools := ts, count := ts.length } := by
    simp [filter_tools_endpoint, hk, hd]
  refine ⟨e1, ?_⟩
  intro resp hresp
  rw [e1] at hresp
  injection hresp with hr
  subst hr
  exact ⟨rfl, rfl⟩

/-- Witness for c8_count_eq_length with a delegate returning three
descriptors. -/
theorem c8_count_eq_length_witness :
    filter_tools_endpoint threeFilterDelegate (some "envkey")
      { query := "send email", max_tools := 5 } =
      Except.ok { tools := [1, 2, 3], count := 3 } :=
  (c8_count_eq_length threeFilterDelegate (some "envkey")
    { query := "send email", max_tools := 5 } "envkey" [1, 2, 3] rfl rfl).1

/-- C9: the GET bindings build exactly the same request record as their
POST counterparts and return the identical result — the two bindings of
each read operation are behaviorally equivalent aliases. -/
theorem c9_get_bindings_are_aliases :
    (∀ (α : Type) (fd : String → Int → String → String → Except String (List α))
       (env_api_key : Option String) (query : String) (max_tools : Int)
       (filter_type : String) (observee_api_key : Option String),
       filter_tools_get_endpoint fd env_api_key query max_tools filter_type observee_api_key =
         filter_tools_endpoint fd env_api_key
           { query := query, max_tools := max_tools, filter_type := filter_type,
             observee_api_key := observee_api_key }) ∧
    (∀ (α : Type) (gd : String → String → Except String (Option α))
       (env_api_key : Option String) (tool_name : String) (observee_api_key : Option String),
       get_tool_info_get_endpoint gd env_api_key tool_name observee_api_key =
         get_tool_info_endpoint gd env_api_key
           { tool_name := tool_name, observee_api_key := observee_api_key }) :=
  ⟨fun _ _ _ _ _ _ _ => rfl, fun _ _ _ _ _ => rfl⟩

/-- C10: when credential resolution fails on POST /filter-tools or POST
/tool-info, the handler's catch-all intercepts the resolver's 400 and
re-raises it as a 500 whose detail is the operation's fixed text followed
by the string rendering of the caught client-error, so the caller observes
a server-error, not a client-error, for a missing credential. -/
theorem c10_resolver_error_becomes_500 {α β : Type}
    (fd : String → Int → String → String → Except String (List α))
    (gd : String → String → Except String (Option β))
    (env_api_key : Option String)
    (freq : FilterToolsRequest) (greq : GetToolInfoRequest)
    (hf : truthy freq.observee_api_key = false)
    (hg : truthy greq.observee_api_key = false)
    (henv : truthy env_api_key = false) :
    filter_tools_endpoint fd env_api_key freq =
      Except.error { status_code := 500,
                     detail := "Error filtering tools: " ++
                       str_of_http_exception missing_api_key_exception } ∧
    get_tool_info_endpoint gd env_api_key greq =
      Except.error { status_code := 500,
                     detail := "Error getting tool info: " ++
                       str_of_http_exception missing_api_key_exception } ∧
    isServerErrorStatus (respStatus (filter_tools_endpoint fd env_api_key freq)) = true ∧
    isClientErrorStatus (respStatus (filter_tools_endpoint fd env_api_key freq)) = false ∧
    isServerErrorStatus (respStatus (get_tool_info_endpoint gd env_api_key greq)) = true ∧
    isClientErrorStatus (respStatus (get_tool_info_endpoint gd env_api_key greq)) = false := by
  have h1 := get_api_key_of_falsy _ _ hf henv
  have h2 := get_api_key_of_falsy _ _ hg henv
  have e1 : filter_tools_endpoint fd env_api_key freq =
      Except.error { status_code := 500,
                     detail := "Error filtering tools: " ++
                       str_of_http_exception missing_api_key_exception } := by
    simp [filter_tools_endpoint, h1, missing_api_key_exception]
  have e2 : get_tool_info_endpoint gd env_api_key greq =
      Except.error { status_code := 500,
                     detail := "Error getting tool info: " ++
                       str_of_http_exception missing_api_key_exception } := by
    simp [get_tool_info_endpoint, h2, missing_api_key_exception]
  exact ⟨e1, e2, by rw [e1]; rfl, by rw [e1]; rfl, by rw [e2]; rfl, by rw [e2]; rfl⟩

/-- Witness for c10_resolver_error_becomes_500 at credential-free concrete
requests with an empty environment. -/
theorem c10_resolver_error_becomes_500_witness :
    filter_tools_endpoint okFilterDelegate none { query := "send email" } =
      Except.error { status_code := 500,
                     detail := "Error filtering tools: " ++
                       str_of_http_exception missing_api_key_exception } ∧
    get_tool_info_endpoint noneInfoDelegate none { tool_name := "gmail" } =
      Except.error { status_code := 500,
                     detail := "Error getting tool info: " ++
                       str_of_http_exception missing_api_key_exception } ∧
    isServerErrorStatus (respStatus (filter_tools_endpoint okFilterDelegate none
      { query := "send email" })) = true ∧
    isClientErrorStatus (respStatus (filter_tools_endpoint okFilterDelegate none
      { query := "send email" })) = false ∧
    isServerErrorStatus (respStatus (get_tool_info_endpoint noneInfoDelegate none
      { tool_name := "gmail" })) = true ∧
    isClientErrorStatus (respStatus (get_tool_info_endpoint noneInfoDelegate none
      { tool_name := "gmail" })) = false :=
  c10_resolver_error_becomes_500 okFilterDelegate noneInfoDelegate none
    { query := "send email" } { tool_name := "gmail" } rfl rfl rfl

end ObserveeAPI
